import Mathlib

/-!
Verification of the deployment tool's core modules (disk safety inspector,
remote execution, firewall configuration, health checking) against their
natural-language specification.  Each Python function of the repository is
shallowly embedded as an executable Lean function over an explicit
environment: file reads and subprocess outcomes become oracle fields,
mutations become explicit state passing plus an effect trace.
-/

/-! ## Python string primitives

`str.split()` (split on whitespace runs, dropping empty chunks), `str.strip()`
and the substring test `in` are modelled character-list-wise, exactly as the
CPython semantics the source relies on. -/

/-- Accumulator-based model of Python `str.split()` over a character list:
whitespace runs separate tokens, empty tokens never occur. -/
def wsTokensAux : List Char → List Char → List (List Char)
  | [], acc => if acc.isEmpty then [] else [acc.reverse]
  | c :: cs, acc =>
    if c.isWhitespace then
      if acc.isEmpty then wsTokensAux cs [] else acc.reverse :: wsTokensAux cs []
    else wsTokensAux cs (c :: acc)

/-- Python `str.split()` on a character list. -/
def wsTokens (l : List Char) : List (List Char) := wsTokensAux l []

/-- Python `str.split()` returning strings. -/
def pySplitStr (s : String) : List String := (wsTokens s.data).map (fun l => ⟨l⟩)

/-- Python `str.strip()` on a character list: drop whitespace from both ends. -/
def pyStripL (l : List Char) : List Char :=
  ((l.dropWhile Char.isWhitespace).reverse.dropWhile Char.isWhitespace).reverse

/-- Python `str.strip()`. -/
def pyStrip (s : String) : String := ⟨pyStripL s.data⟩

/-- Python substring containment `needle in hay`. -/
def strContains (hay needle : String) : Bool := decide (needle.data <:+: hay.data)

/-! ## core/disk.py — DiskManager

The live mount table `/proc/mounts` is modelled as the outcome of reading it:
either the raw lines, or an exception (`Except.error ()`).  Subprocess and
`os` outcomes are oracle fields of `DiskEnv`; the fstab file is explicit
state; destructive actions are recorded in a `DiskEffect` trace. -/

namespace DiskManager

/-- Result of reading `/proc/mounts`: raw lines, or the raised exception. -/
abbrev MountsRead := Except Unit (List String)

/-- Embeds `DiskManager.get_os_partitions`: keep `(device, mountpoint)` for every
mount-table line whose mountpoint is `/`, `/boot` or `/boot/efi`; any read
exception yields the empty list. -/
def get_os_partitions (pm : MountsRead) : List (String × String) :=
  match pm with
  | .error _ => []
  | .ok lines =>
    lines.foldr (fun line acc =>
      match pySplitStr (pyStrip line) with
      | dev :: mp :: _ =>
        if mp = "/" || mp = "/boot" || mp = "/boot/efi" then (dev, mp) :: acc else acc
      | _ => acc) []

/-- The regex `(/dev/[a-zA-Z]+)` anchored at the start of the device string:
the whole-disk identifier of a partition device. -/
def diskPrefixOf (s : String) : Option String :=
  match s.data with
  | '/' :: 'd' :: 'e' :: 'v' :: '/' :: rest =>
    let letters := rest.takeWhile Char.isAlpha
    if letters.isEmpty then none
    else some ⟨'/' :: 'd' :: 'e' :: 'v' :: '/' :: letters⟩
  | _ => none

/-- Embeds `DiskManager.get_os_disks`: whole-disk identifiers derived from the
protected partitions (the Python `set` is modelled as a list up to
membership). -/
def get_os_disks (pm : MountsRead) : List String :=
  (get_os_partitions pm).filterMap (fun p => diskPrefixOf p.1)

/-- Embeds `DiskManager.check_os_partition`: `true` means the device is safe to use,
`false` means it is a protected partition or a protected whole disk. -/
def check_os_partition (pm : MountsRead) (device : String) : Bool :=
  if ((get_os_partitions pm).map Prod.fst).contains device then false
  else if (get_os_disks pm).contains device then false
  else true

end DiskManager

/-! ### Claims C1 and C3 -/

/-- A device the OS-protected set contains: a protected partition device, or a
protected whole-disk identifier. -/
def osProtected (pm : DiskManager.MountsRead) (device : String) : Prop :=
  device ∈ (DiskManager.get_os_partitions pm).map Prod.fst ∨
    device ∈ DiskManager.get_os_disks pm

/-- Shared helper: every OS-protected device is refused by the safety check. -/
theorem check_os_partition_of_protected (pm : DiskManager.MountsRead)
    (device : String) (h : osProtected pm device) :
    DiskManager.check_os_partition pm device = false := by
  unfold DiskManager.check_os_partition
  rcases h with h | h
  · simp [List.contains, List.elem_eq_mem, h]
  · by_cases hc : device ∈ (DiskManager.get_os_partitions pm).map Prod.fst
    · simp [List.contains, List.elem_eq_mem, hc]
    · simp [List.contains, List.elem_eq_mem, hc, h]

/-- C1: every member of the OS-protected set — each `(device, mountpoint)`
pair of the live mount table whose mountpoint is `/`, `/boot` or `/boot/efi`,
and each whole-disk identifier derived from such a partition device — is
refused by `check_os_partition` (it returns `false`). -/
theorem c1_os_protected_devices_refused (pm : DiskManager.MountsRead)
    (dev mp d : String)
    (hpart : (dev, mp) ∈ DiskManager.get_os_partitions pm)
    (hdisk : d ∈ DiskManager.get_os_disks pm) :
    DiskManager.check_os_partition pm dev = false ∧
      DiskManager.check_os_partition pm d = false :=
  ⟨check_os_partition_of_protected pm dev
      (Or.inl (List.mem_map_of_mem Prod.fst hpart)),
    check_os_partition_of_protected pm d (Or.inr hdisk)⟩

/-- C1 witness: a mount table with `/dev/sda1` on `/` protects both the
partition and the derived whole disk `/dev/sda`. -/
theorem c1_os_protected_devices_refused_witness :
    ("/dev/sda1", "/") ∈
        DiskManager.get_os_partitions (.ok ["/dev/sda1 / ext4 rw 0 0"]) ∧
      "/dev/sda" ∈ DiskManager.get_os_disks (.ok ["/dev/sda1 / ext4 rw 0 0"]) ∧
      DiskManager.check_os_partition (.ok ["/dev/sda1 / ext4 rw 0 0"]) "/dev/sda1"
          = false ∧
      DiskManager.check_os_partition (.ok ["/dev/sda1 / ext4 rw 0 0"]) "/dev/sda"
          = false := by
  refine ⟨by decide, by decide, ?_⟩
  exact c1_os_protected_devices_refused (.ok ["/dev/sda1 / ext4 rw 0 0"])
    "/dev/sda1" "/" "/dev/sda" (by decide) (by decide)

/-- C3: the safety inspector fails open — when reading the live mount table
raises, `get_os_partitions` returns the empty list, and `check_os_partition`
therefore reports every device (including one actually mounted at `/`) as
safe to use. -/
theorem c3_mounts_read_failure_fails_open (device : String) :
    DiskManager.get_os_partitions (.error ()) = [] ∧
      DiskManager.check_os_partition (.error ()) device = true := by
  constructor
  · rfl
  · simp [DiskManager.check_os_partition, DiskManager.get_os_partitions,
      DiskManager.get_os_disks]

/-! ## core/disk.py — disk preparation

`DiskEnv` carries the oracle outcomes of the filesystem probes and shell
commands `prepare_disk` runs; the fstab content is threaded as state, and
every destructive action is recorded as a `DiskEffect`. -/

namespace DiskManager

/-- The destructive actions the disk preparation sequence can perform. -/
inductive DiskEffect
  | mkfs (device filesystem : String)
  | mkdirs (mountPoint : String)
  | mountCmd (device mountPoint : String)
  | fstabAppend (entry : String)
  | chownRecursive (path : String)
  | chmodRecursive (path : String)
  deriving DecidableEq, Repr

/-- Outcomes of the OS probes and shell commands used by `DiskManager`. -/
structure DiskEnv where
  /-- result of reading `/proc/mounts` -/
  procMounts : MountsRead
  /-- outcome of `os.path.exists` -/
  pathExists : String → Bool
  /-- whether `mkfs.<fs> -f <device>` exits 0 -/
  mkfsOk : String → String → Bool
  /-- whether `mount <device> <mountPoint>` exits 0 -/
  mountOk : String → String → Bool
  /-- whether `lsblk <device>` exits 0 -/
  lsblkOk : String → Bool
  /-- outcome of `os.statvfs(path)`: available bytes `f_bavail * f_frsize`, or the raised
  exception -/
  availBytes : String → Except Unit Nat
  /-- appending to `/etc/fstab` succeeds -/
  fstabWriteOk : Bool
  /-- whether `chown -R root:root <path>` exits 0 -/
  chownOk : String → Bool
  /-- whether `chmod -R 0755 <path>` exits 0 -/
  chmodOk : String → Bool

/-- Result of reading `/etc/fstab`: its lines, or the raised exception. -/
abbrev FstabRead := Except Unit (List String)

/-- Embeds `DiskManager.check_disk`: the device exists and `lsblk` accepts it. -/
def check_disk (env : DiskEnv) (device : String) : Bool :=
  env.pathExists device && env.lsblkOk device

/-- Embeds `DiskManager.format_disk`: existence check, then `mkfs.<fs> -f`. -/
def format_disk (env : DiskEnv) (device filesystem : String) :
    Bool × List DiskEffect :=
  if env.pathExists device then
    (env.mkfsOk device filesystem, [.mkfs device filesystem])
  else (false, [])

/-- Does a mount-table line record exactly this `(device, mountpoint)` pair? -/
def mountLineMatches (device mountPoint line : String) : Bool :=
  match pySplitStr (pyStrip line) with
  | d :: m :: _ => d == device && m == mountPoint
  | _ => false

/-- Embeds `DiskManager.mount_disk`: create the mount point if missing, skip the
mount command when the live mount table already records the identical pair,
otherwise run `mount`.  A mount-table read exception is caught and yields
`false`. -/
def mount_disk (env : DiskEnv) (device mountPoint : String) :
    Bool × List DiskEffect :=
  let mk : List DiskEffect :=
    if env.pathExists mountPoint then [] else [.mkdirs mountPoint]
  match env.procMounts with
  | .error _ => (false, mk)
  | .ok lines =>
    if lines.any (mountLineMatches device mountPoint) then (true, mk)
    else (env.mountOk device mountPoint, mk ++ [.mountCmd device mountPoint])

/-- Does an fstab line (after `strip`) record this pair, the way
`add_to_fstab` itself parses: non-empty, not a `#` comment, at least six
fields, first two equal to device and mountpoint? -/
def fstabLineMatches (device mountPoint line : String) : Bool :=
  let l := pyStripL line.data
  if l.isEmpty then false
  else if l.head? == some '#' then false
  else match wsTokens l with
    | d :: m :: _ :: _ :: _ :: _ :: _ => d == device.data && m == mountPoint.data
    | _ => false

/-- The fstab entry text `add_to_fstab` appends (without its trailing
newline). -/
def fstabEntry (device mountPoint filesystem options : String) : String :=
  device ++ " " ++ mountPoint ++ " " ++ filesystem ++ " " ++ options ++ " 0 2"

/-- Embeds `DiskManager.add_to_fstab`: return `true` without writing when an
identical `(device, mountpoint)` entry already exists, otherwise append one
entry.  A read exception yields `false`. -/
def add_to_fstab (env : DiskEnv) (fstab : FstabRead)
    (device mountPoint filesystem options : String) :
    Bool × FstabRead × List DiskEffect :=
  match fstab with
  | .error _ => (false, fstab, [])
  | .ok lines =>
    if lines.any (fstabLineMatches device mountPoint) then (true, fstab, [])
    else
      let entry := fstabEntry device mountPoint filesystem options
      if env.fstabWriteOk then
        (true, .ok (lines ++ [entry]), [.fstabAppend entry])
      else (false, fstab, [])

/-- Embeds `DiskManager.check_disk_space`: available space at `path` is at least
`minSpaceGb` gigabytes (the Python float division is modelled exactly over
bytes); a `statvfs` exception yields `false`. -/
def check_disk_space (env : DiskEnv) (path : String) (minSpaceGb : Nat) : Bool :=
  match env.availBytes path with
  | .error _ => false
  | .ok bytes => decide (bytes ≥ minSpaceGb * (1024 * 1024 * 1024))

/-- Embeds `DiskManager.set_permissions`: recursive `chown` then recursive `chmod`. -/
def set_permissions (env : DiskEnv) (path : String) : Bool × List DiskEffect :=
  if env.chownOk path then
    (env.chmodOk path, [.chownRecursive path, .chmodRecursive path])
  else (false, [.chownRecursive path])

/-- Embeds `DiskManager.prepare_disk`: safety check → availability probe → optional
format → mount → fstab persistence → free-space check → permission
normalization; the first failing step aborts with `false`. -/
def prepare_disk (env : DiskEnv) (fstab : FstabRead)
    (device mountPoint filesystem : String) (formatDisk : Bool)
    (minSpaceGb : Nat) : Bool × FstabRead × List DiskEffect :=
  if !check_os_partition env.procMounts device then (false, fstab, [])
  else if !check_disk env device then (false, fstab, [])
  else
    let fmt := if formatDisk then format_disk env device filesystem
      else (true, [])
    if !fmt.1 then (false, fstab, fmt.2)
    else
      let mnt := mount_disk env device mountPoint
      if !mnt.1 then (false, fstab, fmt.2 ++ mnt.2)
      else
        let fst := add_to_fstab env fstab device mountPoint filesystem "defaults"
        if !fst.1 then (false, fst.2.1, fmt.2 ++ mnt.2 ++ fst.2.2)
        else if !check_disk_space env mountPoint minSpaceGb then
          (false, fst.2.1, fmt.2 ++ mnt.2 ++ fst.2.2)
        else
          let perm := set_permissions env mountPoint
          (perm.1, fst.2.1, fmt.2 ++ mnt.2 ++ fst.2.2 ++ perm.2)

end DiskManager

/-! ### Claim C2 -/

/-- C2: against an OS-protected device, `prepare_disk` returns `false`,
leaves the static mount table untouched and performs no effect at all — the
safety check is the first step and its failure aborts the sequence. -/
theorem c2_prepare_disk_refuses_protected (env : DiskManager.DiskEnv)
    (fstab : DiskManager.FstabRead) (device mountPoint filesystem : String)
    (formatDisk : Bool) (minSpaceGb : Nat)
    (h : osProtected env.procMounts device) :
    DiskManager.prepare_disk env fstab device mountPoint filesystem
        formatDisk minSpaceGb = (false, fstab, []) := by
  have hc := check_os_partition_of_protected env.procMounts device h
  simp [DiskManager.prepare_disk, hc]

/-- C2 witness: with `/dev/sda1` mounted at `/`, preparing `/dev/sda1` is
refused with no mutation. -/
theorem c2_prepare_disk_refuses_protected_witness :
    osProtected (.ok ["/dev/sda1 / ext4 rw 0 0"]) "/dev/sda1" ∧
      DiskManager.prepare_disk
        { procMounts := .ok ["/dev/sda1 / ext4 rw 0 0"]
          pathExists := fun _ => true
          mkfsOk := fun _ _ => true
          mountOk := fun _ _ => true
          lsblkOk := fun _ => true
          availBytes := fun _ => .ok (100 * 1024 * 1024 * 1024)
          fstabWriteOk := true
          chownOk := fun _ => true
          chmodOk := fun _ => true }
        (.ok []) "/dev/sda1" "/data/minio" "ext4" true 10
        = (false, .ok [], []) :=
  have hp : osProtected (.ok ["/dev/sda1 / ext4 rw 0 0"]) "/dev/sda1" :=
    Or.inl (by decide)
  ⟨hp, c2_prepare_disk_refuses_protected _ _ _ _ _ _ _ hp⟩

/-! ### Claim C7 — fstab persistence idempotence -/

/-- A string with non-empty, whitespace-free content: the shape of every
real device path, mount point, filesystem name and option string. -/
def wsFree (s : String) : Prop :=
  s.data ≠ [] ∧ ∀ c ∈ s.data, c.isWhitespace = false

/-- One-step unfolding of `wsTokensAux` on a cons cell. -/
theorem wsTokensAux_cons (c : Char) (cs acc : List Char) :
    wsTokensAux (c :: cs) acc =
      if c.isWhitespace then
        if acc.isEmpty then wsTokensAux cs []
        else acc.reverse :: wsTokensAux cs []
      else wsTokensAux cs (c :: acc) := rfl

/-- Lemma: `wsTokensAux` consumes one whitespace-free token up to a space
separator. -/
theorem wsTokensAux_append_token :
    ∀ (t : List Char), t ≠ [] → (∀ c ∈ t, c.isWhitespace = false) →
      ∀ (rest acc : List Char),
      wsTokensAux (t ++ ' ' :: rest) acc
        = (acc.reverse ++ t) :: wsTokensAux rest []
  | [], ht, _ => absurd rfl ht
  | [c], _, hws => by
    intro rest acc
    have hc : c.isWhitespace = false := hws c (by simp)
    simp [wsTokensAux, hc]
  | c :: c' :: t', _, hws => by
    intro rest acc
    have hc : c.isWhitespace = false := hws c (by simp)
    have ih := wsTokensAux_append_token (c' :: t') (by simp)
      (fun x hx => hws x (List.mem_cons_of_mem c hx)) rest (c :: acc)
    rw [List.cons_append, wsTokensAux_cons]
    simp only [hc, Bool.false_eq_true, if_false]
    rw [ih]
    simp [List.reverse_cons, List.append_assoc]

/-- Lemma: `wsTokensAux` on a trailing whitespace-free token. -/
theorem wsTokensAux_all_token :
    ∀ (t acc : List Char), (t = [] → acc ≠ []) →
      (∀ c ∈ t, c.isWhitespace = false) →
      wsTokensAux t acc = [acc.reverse ++ t]
  | [], acc, hne, _ => by
    have hacc : acc ≠ [] := hne rfl
    simp [wsTokensAux, hacc]
  | c :: t', acc, _, hws => by
    have hc : c.isWhitespace = false := hws c (by simp)
    have ih := wsTokensAux_all_token t' (c :: acc) (fun _ => by simp)
      (fun x hx => hws x (List.mem_cons_of_mem c hx))
    simp only [wsTokensAux, hc, Bool.false_eq_true, if_false, ih,
      List.reverse_cons, List.append_assoc, List.singleton_append]

/-- Lemma: `dropWhile` is the identity when the first element already fails the
predicate. -/
theorem dropWhile_eq_self_of_head (p : Char → Bool) (l : List Char) (c : Char)
    (hc : l.head? = some c) (h : p c = false) : l.dropWhile p = l := by
  cases l with
  | nil => exact absurd hc (by simp)
  | cons a l' =>
    have : a = c := by simpa using hc
    subst this
    simp [List.dropWhile_cons, h]

/-- Python `strip` is the identity on a string whose two ends are not
whitespace. -/
theorem pyStripL_eq_self (l : List Char) (cf cl : Char)
    (hf : l.head? = some cf) (hwf : cf.isWhitespace = false)
    (hl : l.reverse.head? = some cl) (hwl : cl.isWhitespace = false) :
    pyStripL l = l := by
  unfold pyStripL
  rw [dropWhile_eq_self_of_head _ l cf hf hwf,
    dropWhile_eq_self_of_head _ l.reverse cl hl hwl, List.reverse_reverse]

/-- The character content of the appended fstab entry. -/
theorem fstabEntry_data (dev mp fs opts : String) :
    (DiskManager.fstabEntry dev mp fs opts).data
      = dev.data ++ ' ' :: (mp.data ++ ' ' :: (fs.data ++ ' '
          :: (opts.data ++ ' ' :: '0' :: ' ' :: '2' :: []))) := by
  have h1 : (" " : String).data = [' '] := rfl
  have h2 : (" 0 2" : String).data = [' ', '0', ' ', '2'] := rfl
  unfold DiskManager.fstabEntry
  simp [String.data_append, h1, h2]

/-- Tokenizing the appended fstab entry recovers its six fields. -/
theorem wsTokens_fstabEntry (dev mp fs opts : String)
    (hdev : wsFree dev) (hmp : wsFree mp) (hfs : wsFree fs)
    (hopts : wsFree opts) :
    wsTokens (DiskManager.fstabEntry dev mp fs opts).data
      = [dev.data, mp.data, fs.data, opts.data, ['0'], ['2']] := by
  rw [wsTokens, fstabEntry_data]
  rw [wsTokensAux_append_token dev.data hdev.1 hdev.2]
  rw [wsTokensAux_append_token mp.data hmp.1 hmp.2]
  rw [wsTokensAux_append_token fs.data hfs.1 hfs.2]
  rw [wsTokensAux_append_token opts.data hopts.1 hopts.2]
  simp only [List.reverse_nil, List.nil_append]
  rfl

/-- The head character of the appended entry is the device's head. -/
theorem fstabEntry_head (dev mp fs opts : String) (c : Char) (t : List Char)
    (h : dev.data = c :: t) :
    (DiskManager.fstabEntry dev mp fs opts).data.head? = some c := by
  rw [fstabEntry_data, h]
  rfl

/-- The last character of the appended entry is `'2'`. -/
theorem fstabEntry_revHead (dev mp fs opts : String) :
    (DiskManager.fstabEntry dev mp fs opts).data.reverse.head? = some '2' := by
  rw [fstabEntry_data]
  simp [List.reverse_append, List.reverse_cons, List.append_assoc]

/-- Stripping the appended entry changes nothing. -/
theorem pyStripL_fstabEntry (dev mp fs opts : String) (hdev : wsFree dev) :
    pyStripL (DiskManager.fstabEntry dev mp fs opts).data
      = (DiskManager.fstabEntry dev mp fs opts).data := by
  obtain ⟨hne, hws⟩ := hdev
  obtain ⟨c, t, hct⟩ := List.exists_cons_of_ne_nil hne
  exact pyStripL_eq_self _ c '2' (fstabEntry_head dev mp fs opts c t hct)
    (hws c (hct ▸ List.mem_cons_self c t)) (fstabEntry_revHead dev mp fs opts)
    (by decide)

/-- The appended entry is recognized by the duplicate check of
`add_to_fstab`. -/
theorem fstabLineMatches_fstabEntry (dev mp fs opts : String)
    (hdev : wsFree dev) (hmp : wsFree mp) (hfs : wsFree fs)
    (hopts : wsFree opts) (hhash : dev.data.head? ≠ some '#') :
    DiskManager.fstabLineMatches dev mp
      (DiskManager.fstabEntry dev mp fs opts) = true := by
  obtain ⟨c, t, hct⟩ := List.exists_cons_of_ne_nil hdev.1
  unfold DiskManager.fstabLineMatches
  rw [pyStripL_fstabEntry dev mp fs opts hdev]
  have hhead := fstabEntry_head dev mp fs opts c t hct
  have hne : (DiskManager.fstabEntry dev mp fs opts).data ≠ [] := by
    intro h
    rw [h] at hhead
    exact absurd hhead (by simp)
  have hch : c ≠ '#' := by
    intro h
    exact hhash (by rw [hct, h]; rfl)
  simp only [List.isEmpty_iff, hne, if_false, hhead]
  have : ((some c == some '#') : Bool) = false := by
    simpa using hch
  simp only [this, Bool.false_eq_true, if_false]
  rw [wsTokens_fstabEntry dev mp fs opts hdev hmp hfs hopts]
  simp

/-- How many fstab entries record a given `(device, mountpoint)` pair, as
`add_to_fstab` itself recognizes entries. -/
def fstabEntryCount (fstab : DiskManager.FstabRead) (device mountPoint : String) :
    Nat :=
  match fstab with
  | .error _ => 0
  | .ok lines =>
    (lines.filter (DiskManager.fstabLineMatches device mountPoint)).length

/-- C7 counterexample: with the device string `"#x"` (the claim quantifies
over every device), the appended fstab line re-reads as a comment, so the
second identical call does not detect it: it appends a second identical
line instead of appending nothing, leaving two lines for the pair. -/
theorem c7_counterexample_hash_device :
    DiskManager.add_to_fstab
        { procMounts := .ok [], pathExists := fun _ => true,
          mkfsOk := fun _ _ => true, mountOk := fun _ _ => true,
          lsblkOk := fun _ => true, availBytes := fun _ => .ok 0,
          fstabWriteOk := true, chownOk := fun _ => true,
          chmodOk := fun _ => true }
        (.ok ["#x /m ext4 defaults 0 2"]) "#x" "/m" "ext4" "defaults"
      = (true, .ok ["#x /m ext4 defaults 0 2", "#x /m ext4 defaults 0 2"],
          [.fstabAppend "#x /m ext4 defaults 0 2"]) := rfl

/-- C7 (amended): for non-empty, whitespace-free arguments whose device does
not begin with `'#'`, starting from an fstab with no entry for the pair and a
writable fstab, calling `add_to_fstab` twice with identical arguments yields
exactly one persisted entry: the first call appends it and returns `true`,
the second call detects it, appends nothing, and still returns `true`. -/
theorem c7_add_to_fstab_idempotent (env : DiskManager.DiskEnv)
    (lines : List String) (dev mp fs opts : String)
    (hw : env.fstabWriteOk = true)
    (hdev : wsFree dev) (hmp : wsFree mp) (hfs : wsFree fs)
    (hopts : wsFree opts) (hhash : dev.data.head? ≠ some '#')
    (hinit : ∀ l ∈ lines, DiskManager.fstabLineMatches dev mp l = false) :
    DiskManager.add_to_fstab env (.ok lines) dev mp fs opts
        = (true, .ok (lines ++ [DiskManager.fstabEntry dev mp fs opts]),
            [.fstabAppend (DiskManager.fstabEntry dev mp fs opts)]) ∧
      DiskManager.add_to_fstab env
          (.ok (lines ++ [DiskManager.fstabEntry dev mp fs opts]))
          dev mp fs opts
        = (true, .ok (lines ++ [DiskManager.fstabEntry dev mp fs opts]), []) ∧
      fstabEntryCount
          (.ok (lines ++ [DiskManager.fstabEntry dev mp fs opts])) dev mp
        = 1 := by
  have hmatch := fstabLineMatches_fstabEntry dev mp fs opts hdev hmp hfs hopts hhash
  have hany : lines.any (DiskManager.fstabLineMatches dev mp) = false := by
    simp only [List.any_eq_false]
    intro l hl
    simp [hinit l hl]
  have hfilter : lines.filter (DiskManager.fstabLineMatches dev mp) = [] := by
    rw [List.filter_eq_nil_iff]
    intro l hl
    simp [hinit l hl]
  refine ⟨?_, ?_, ?_⟩
  · simp [DiskManager.add_to_fstab, hany, hw]
  · have : (lines ++ [DiskManager.fstabEntry dev mp fs opts]).any
        (DiskManager.fstabLineMatches dev mp) = true := by
      simp only [List.any_eq_true]
      exact ⟨DiskManager.fstabEntry dev mp fs opts, by simp, hmatch⟩
    simp [DiskManager.add_to_fstab, this]
  · simp [fstabEntryCount, List.filter_append, hfilter, hmatch]

/-- C7 witness: a realistic device, mount point and filesystem, starting
from an empty fstab. -/
theorem c7_add_to_fstab_idempotent_witness :
    DiskManager.add_to_fstab
        { procMounts := .ok [], pathExists := fun _ => true,
          mkfsOk := fun _ _ => true, mountOk := fun _ _ => true,
          lsblkOk := fun _ => true, availBytes := fun _ => .ok 0,
          fstabWriteOk := true, chownOk := fun _ => true,
          chmodOk := fun _ => true }
        (.ok ["/dev/sdb1 /data/minio ext4 defaults 0 2"])
        "/dev/sdb1" "/data/minio" "ext4" "defaults"
      = (true, .ok ["/dev/sdb1 /data/minio ext4 defaults 0 2"], []) ∧
      fstabEntryCount (.ok ["/dev/sdb1 /data/minio ext4 defaults 0 2"])
        "/dev/sdb1" "/data/minio" = 1 := by
  have h := c7_add_to_fstab_idempotent
    { procMounts := .ok [], pathExists := fun _ => true,
      mkfsOk := fun _ _ => true, mountOk := fun _ _ => true,
      lsblkOk := fun _ => true, availBytes := fun _ => .ok 0,
      fstabWriteOk := true, chownOk := fun _ => true,
      chmodOk := fun _ => true }
    [] "/dev/sdb1" "/data/minio" "ext4" "defaults" rfl
    ⟨by decide, by decide⟩ ⟨by decide, by decide⟩
    ⟨by decide, by decide⟩ ⟨by decide, by decide⟩
    (by decide) (by intro l hl; simp at hl)
  have he : DiskManager.fstabEntry "/dev/sdb1" "/data/minio" "ext4" "defaults"
      = "/dev/sdb1 /data/minio ext4 defaults 0 2" := rfl
  refine ⟨?_, ?_⟩
  · have := h.2.1
    rw [he] at this
    simpa using this
  · have := h.2.2
    rw [he] at this
    simpa using this

/-! ## core/health.py — HealthChecker

`run_comprehensive_check` drives six probes (service state, service port,
console port, health HTTP endpoint, `mc` availability, bucket smoke test)
whose individual outcomes are modelled as an oracle record, and derives
`overall_status`. -/

namespace HealthChecker

/-- Outcomes of the six individual probes `run_comprehensive_check` invokes:
`check_service_running`, `check_port_listening` on the service port,
`check_port_listening` on the console port, `check_health_api`,
`check_mc_command`, and `check_bucket_access`. -/
structure Probes where
  serviceRunning : Bool
  portListening : Bool
  consolePortListening : Bool
  healthApi : Bool
  mcAvailable : Bool
  bucketAccess : Bool
  deriving DecidableEq, Repr

/-- The boolean fields of the health-check result dictionary. -/
structure CheckResults where
  service_running : Bool
  port_listening : Bool
  console_port_listening : Bool
  health_api : Bool
  mc_available : Bool
  bucket_access : Bool
  overall_status : Bool
  deriving DecidableEq, Repr

/-- Embeds `HealthChecker.run_comprehensive_check`: record every probe outcome (the
bucket test only runs when `mc` is available and the health API passed) and
derive `overall_status` from service state, service port and health API. -/
def run_comprehensive_check (p : Probes) : CheckResults :=
  { service_running := p.serviceRunning
    port_listening := p.portListening
    console_port_listening := p.consolePortListening
    health_api := p.healthApi
    mc_available := p.mcAvailable
    bucket_access :=
      if p.mcAvailable && p.healthApi then p.bucketAccess else false
    overall_status := p.serviceRunning && p.portListening && p.healthApi }

end HealthChecker

/-! ### Claim C4 -/

/-- C4: for every combination of the six probe outcomes, `overall_status` is
exactly the conjunction of the service-active, port-listening and
HTTP-health probes, and flipping only the console-port probe or only the
bucket-access probe never changes it. -/
theorem c4_overall_status_gating (p : HealthChecker.Probes)
    (c b : Bool) :
    (HealthChecker.run_comprehensive_check p).overall_status
        = (p.serviceRunning && p.portListening && p.healthApi) ∧
      (HealthChecker.run_comprehensive_check
            { p with consolePortListening := c }).overall_status
        = (HealthChecker.run_comprehensive_check p).overall_status ∧
      (HealthChecker.run_comprehensive_check
            { p with bucketAccess := b }).overall_status
        = (HealthChecker.run_comprehensive_check p).overall_status := by
  cases p
  exact ⟨rfl, rfl, rfl⟩

/-! ## core/remote.py — RemoteExecutor

Each paramiko interaction is an oracle: `connect` maps the attempted
authentication method to success or a typed exception, `execRes` is the
outcome of `exec_command` plus stream reads, and `errMsg` is Python's
`str(e)`.  `execute_command` additionally returns the ordered list of
connection attempts it made, so the fallback policy is visible. -/

namespace RemoteExecutor

/-- The exception classes the source handles around paramiko calls. -/
inductive SshError
  | auth (msg : String)
  | sshProtocol (msg : String)
  | sockTimeout (msg : String)
  | other (msg : String)
  deriving DecidableEq, Repr

/-- The distinct `client.connect` argument shapes `execute_command` uses:
key file with default agent settings, key file with `look_for_keys=False,
allow_agent=False`, password, or defaults only. -/
inductive ConnMethod
  | key (path : String)
  | keyNoAgent (path : String)
  | pwd
  | dflt
  deriving DecidableEq, Repr

/-- Oracles for one `execute_command` call. -/
structure SshEnv where
  /-- outcome of `os.path.expanduser` -/
  expanduser : String → String
  /-- outcome of `client.connect` for each argument shape -/
  connect : ConnMethod → Except SshError Unit
  /-- outcome of `exec_command` + `recv_exit_status` + stream reads:
  `(exit code, raw stdout, raw stderr)` -/
  execRes : Except SshError (Nat × String × String)
  /-- Python `str(e)` -/
  errMsg : SshError → String

/-- Python truthiness of an optional string argument. -/
def truthy : Option String → Bool
  | none => false
  | some s => !s.data.isEmpty

/-- Python `path.endswith('.pub')`. -/
def endsWithPub (s : String) : Bool := decide (['.', 'p', 'u', 'b'] <:+ s.data)

/-- Strip a trailing `.pub`, turning a public-key path into the private-key
path (`private_key_file[:-4]`). -/
def stripPubSuffix (s : String) : String :=
  if endsWithPub s then ⟨s.data.take (s.data.length - 4)⟩ else s

/-- The connection-selection policy of `execute_command` (lines 406-427):
returns the final connect outcome and the ordered attempts made. -/
def connectPhase (env : SshEnv) (pk password : Option String) :
    Except SshError Unit × List ConnMethod :=
  if (truthy pk || truthy password) && !truthy password then
    if truthy pk then
      (env.connect (.key (pk.getD "")), [.key (pk.getD "")])
    else (env.connect .dflt, [.dflt])
  else if truthy pk && truthy password then
    match env.connect (.keyNoAgent (pk.getD "")) with
    | .ok u => (.ok u, [.keyNoAgent (pk.getD "")])
    | .error (.auth _) => (env.connect .pwd, [.keyNoAgent (pk.getD ""), .pwd])
    | .error e => (.error e, [.keyNoAgent (pk.getD "")])
  else
    if truthy password then (env.connect .pwd, [.pwd])
    else if truthy pk then
      (env.connect (.key (pk.getD "")), [.key (pk.getD "")])
    else (env.connect .dflt, [.dflt])

/-- Embeds `RemoteExecutor.execute_command`: resolve the key path, connect under
the selection policy, run the command, and normalize every exception to
`(1, "", str(e))`. -/
def execute_command (env : SshEnv) (key_file password : Option String) :
    (Nat × String × String) × List ConnMethod :=
  let pk := key_file.map (fun f => stripPubSuffix (env.expanduser f))
  let cp := connectPhase env pk password
  match cp.1 with
  | .error e => ((1, "", env.errMsg e), cp.2)
  | .ok _ =>
    match env.execRes with
    | .error e => ((1, "", env.errMsg e), cp.2)
    | .ok r => ((r.1, pyStrip r.2.1, pyStrip r.2.2), cp.2)

end RemoteExecutor

/-! ### Claims C5 and C6 -/

/-- C5: `execute_command` is a total function — the embedding returns a
result tuple on every oracle outcome — and its result is either the remote
command's `(exitCode, stdout, stderr)` (streams stripped, exactly when the
connection and execution both succeeded), or the normalized failure
`(1, "", errorDetail)`. -/
theorem c5_execute_command_total_normalized (env : RemoteExecutor.SshEnv)
    (key_file password : Option String) :
    (∃ r, env.execRes = .ok r ∧
        (RemoteExecutor.execute_command env key_file password).1
          = (r.1, pyStrip r.2.1, pyStrip r.2.2)) ∨
      (∃ e, (RemoteExecutor.execute_command env key_file password).1
          = (1, "", env.errMsg e)) := by
  unfold RemoteExecutor.execute_command
  cases hc : (RemoteExecutor.connectPhase env
      (key_file.map (fun f => RemoteExecutor.stripPubSuffix (env.expanduser f)))
      password).1 with
  | error e => exact Or.inr ⟨e, by simp [hc]⟩
  | ok u =>
    cases he : env.execRes with
    | error e => exact Or.inr ⟨e, by simp [hc, he]⟩
    | ok r => exact Or.inl ⟨r, rfl, by simp [hc, he]⟩

/-- C6: when both a key path and a password are supplied (truthy), the key
attempt with agent use and key discovery disabled comes first; the password
attempt happens exactly when that key attempt fails with an
authentication-specific error; and any non-authentication failure of the
key attempt is surfaced directly as the normalized failure with no password
retry. -/
theorem c6_key_then_password_fallback (env : RemoteExecutor.SshEnv)
    (key_file password : Option String)
    (hk : RemoteExecutor.truthy
        (key_file.map (fun f => RemoteExecutor.stripPubSuffix (env.expanduser f)))
        = true)
    (hp : RemoteExecutor.truthy password = true) :
    (RemoteExecutor.execute_command env key_file password).2.head?
        = some (.keyNoAgent
            ((key_file.map
                (fun f => RemoteExecutor.stripPubSuffix (env.expanduser f))).getD ""))
      ∧
      ((RemoteExecutor.ConnMethod.pwd
            ∈ (RemoteExecutor.execute_command env key_file password).2)
        ↔ ∃ m, env.connect (.keyNoAgent
            ((key_file.map
                (fun f => RemoteExecutor.stripPubSuffix (env.expanduser f))).getD ""))
          = .error (.auth m))
      ∧
      (∀ e, env.connect (.keyNoAgent
            ((key_file.map
                (fun f => RemoteExecutor.stripPubSuffix (env.expanduser f))).getD ""))
          = .error e → (∀ m, e ≠ .auth m) →
        RemoteExecutor.execute_command env key_file password
          = ((1, "", env.errMsg e),
              [.keyNoAgent
                ((key_file.map
                  (fun f => RemoteExecutor.stripPubSuffix (env.expanduser f))).getD "")])) := by
  set pk := key_file.map (fun f => RemoteExecutor.stripPubSuffix (env.expanduser f))
    with hpk
  have hcond1 : ((RemoteExecutor.truthy pk || RemoteExecutor.truthy password)
      && !RemoteExecutor.truthy password) = false := by
    simp [hp]
  have hcond2 : (RemoteExecutor.truthy pk && RemoteExecutor.truthy password)
      = true := by
    simp [hk, hp]
  have hphase : RemoteExecutor.connectPhase env pk password
      = match env.connect (.keyNoAgent (pk.getD "")) with
        | .ok u => (.ok u, [.keyNoAgent (pk.getD "")])
        | .error (.auth _) =>
          (env.connect .pwd, [.keyNoAgent (pk.getD ""), .pwd])
        | .error e => (.error e, [.keyNoAgent (pk.getD "")]) := by
    unfold RemoteExecutor.connectPhase
    rw [hcond1, hcond2]
    simp
  refine ⟨?_, ?_, ?_⟩
  · unfold RemoteExecutor.execute_command
    dsimp only
    rw [hphase]
    cases hc : env.connect (.keyNoAgent (pk.getD "")) with
    | ok u => cases he : env.execRes <;> simp
    | error e =>
      cases e with
      | auth m =>
        cases hc2 : env.connect .pwd with
        | ok u => cases he : env.execRes <;> simp
        | error e2 => simp
      | sshProtocol m => simp
      | sockTimeout m => simp
      | other m => simp
  · unfold RemoteExecutor.execute_command
    dsimp only
    rw [hphase]
    cases hc : env.connect (.keyNoAgent (pk.getD "")) with
    | ok u =>
      cases he : env.execRes <;>
        simp [hc]
    | error e =>
      cases e with
      | auth m =>
        have hex : ∃ m2, env.connect (.keyNoAgent (pk.getD ""))
            = .error (.auth m2) := ⟨m, hc⟩
        cases hc2 : env.connect .pwd with
        | ok u => cases he : env.execRes <;> simp [hex]
        | error e2 => simp [hex]
      | sshProtocol m => simp [hc]
      | sockTimeout m => simp [hc]
      | other m => simp [hc]
  · intro e hce hnotauth
    unfold RemoteExecutor.execute_command
    dsimp only
    rw [hphase, hce]
    cases e with
    | auth m => exact absurd rfl (hnotauth m)
    | sshProtocol m => simp
    | sockTimeout m => simp
    | other m => simp

/-- C6 witness: both credentials supplied; the no-agent key attempt fails
with an authentication error, so the password attempt follows it. -/
theorem c6_key_then_password_fallback_witness :
    (RemoteExecutor.execute_command
        { expanduser := fun s => s
          connect := fun m => match m with
            | .keyNoAgent _ => .error (.auth "denied")
            | _ => .ok ()
          execRes := .ok (0, "ok", "")
          errMsg := fun _ => "error" }
        (some "/root/.ssh/id_rsa") (some "secret")).2.head?
      = some (.keyNoAgent "/root/.ssh/id_rsa") := by
  have h := c6_key_then_password_fallback
    { expanduser := fun s => s
      connect := fun m => match m with
        | .keyNoAgent _ => .error (.auth "denied")
        | _ => .ok ()
      execRes := .ok (0, "ok", "")
      errMsg := fun _ => "error" }
    (some "/root/.ssh/id_rsa") (some "secret") (by decide) (by decide)
  exact h.1

/-! ## core/remote.py — SSH trust bootstrap (C8)

`setup_ssh_trust` threads the remote host's authorized-keys content as
state; local key generation, the public-key read, the two password
connections and the remote command exit codes are oracles; remote mutations
are recorded as `TrustEffect`s. -/

namespace RemoteExecutor

/-- The remote mutations `setup_ssh_trust` can perform: the
`mkdir -p ~/.ssh && chmod 700 ~/.ssh` command, and the
`echo '<key>' >> ~/.ssh/authorized_keys && chmod 600 ...` command. -/
inductive TrustEffect
  | mkdirSsh
  | appendKey (publicKey : String)
  deriving DecidableEq, Repr

/-- The remote authorized-keys store, as returned by
`cat ~/.ssh/authorized_keys 2>/dev/null || echo ''`. -/
structure RemoteHost where
  authorizedKeys : String
  deriving DecidableEq, Repr

/-- Oracles for one `setup_ssh_trust` call. -/
structure TrustEnv where
  /-- the resolved private-key file exists locally -/
  localKeyExists : Bool
  /-- whether `ssh-keygen` succeeds when the pair must be generated -/
  keygenOk : Bool
  /-- reading the local public-key file (content already stripped) -/
  pubRead : Except Unit String
  /-- a truthy password argument was supplied -/
  passwordGiven : Bool
  /-- the password connection plus `cat authorized_keys` of the pre-check
  phase succeeds (any exception there is caught and the append phase is
  tried instead) -/
  precheckConnectOk : Bool
  /-- the password connection of the mutation phase succeeds -/
  mutateConnectOk : Bool
  /-- exit code of the remote `mkdir -p ~/.ssh && chmod 700 ~/.ssh` -/
  mkdirExit : Nat
  /-- exit code of the remote append + `chmod 600` command -/
  appendExit : Nat

/-- Embeds `public_key.split()[1] if ' ' in public_key else public_key`: the bare
key material of the public-key line; `none` models the `IndexError` of a
one-token line containing a space (caught by the surrounding `try`). -/
def pubKeyPart (pk : String) : Option String :=
  if pk.data.contains ' ' then ((wsTokens pk.data).get? 1).map (fun l => ⟨l⟩)
  else some pk

/-- Embeds `RemoteExecutor.setup_ssh_trust`: ensure a local key pair, read the
public key, return success immediately when the key material is already in
the remote store, otherwise password-connect and append it. -/
def setup_ssh_trust (env : TrustEnv) (host : RemoteHost) :
    Bool × RemoteHost × List TrustEffect :=
  if !env.localKeyExists && !env.keygenOk then (false, host, [])
  else
    match env.pubRead with
    | .error _ => (false, host, [])
    | .ok pk =>
      let found := env.precheckConnectOk &&
        (match pubKeyPart pk with
          | some p => strContains host.authorizedKeys p
          | none => false)
      if found then (true, host, [])
      else if !env.passwordGiven then (false, host, [])
      else if !env.mutateConnectOk then (false, host, [])
      else if env.mkdirExit != 0 then (false, host, [.mkdirSsh])
      else if env.appendExit != 0 then
        (false, host, [.mkdirSsh, .appendKey pk])
      else
        (true, { authorizedKeys := host.authorizedKeys ++ pk ++ "\n" },
          [.mkdirSsh, .appendKey pk])

end RemoteExecutor

/-! ### Claim C8 -/

/-- Every token produced by `wsTokensAux` is an infix of the reversed
accumulator followed by the input. -/
theorem wsTokensAux_infix :
    ∀ (l acc t : List Char), t ∈ wsTokensAux l acc → t <:+: acc.reverse ++ l
  | [], acc, t => by
    intro ht
    rw [wsTokensAux] at ht
    by_cases hacc : acc.isEmpty
    · simp [hacc] at ht
    · simp only [hacc, Bool.false_eq_true, if_false, List.mem_singleton] at ht
      subst ht
      exact ⟨[], [], by simp⟩
  | c :: cs, acc, t => by
    intro ht
    rw [wsTokensAux_cons] at ht
    by_cases hws : c.isWhitespace
    · simp only [hws, if_true] at ht
      by_cases hacc : acc.isEmpty
      · simp only [hacc, if_true] at ht
        have := wsTokensAux_infix cs [] t ht
        simp only [List.reverse_nil, List.nil_append] at this
        exact this.trans ⟨acc.reverse ++ [c], [], by simp⟩
      · simp only [hacc, Bool.false_eq_true, if_false, List.mem_cons] at ht
        rcases ht with ht | ht
        · subst ht
          exact ⟨[], c :: cs, by simp⟩
        · have := wsTokensAux_infix cs [] t ht
          simp only [List.reverse_nil, List.nil_append] at this
          exact this.trans ⟨acc.reverse ++ [c], [], by simp⟩
    · simp only [hws, Bool.false_eq_true, if_false] at ht
      have := wsTokensAux_infix cs (c :: acc) t ht
      simpa [List.append_assoc] using this

/-- The key material extracted by `pubKeyPart` is an infix of the public-key
line. -/
theorem pubKeyPart_isInfix (pk p : String)
    (h : RemoteExecutor.pubKeyPart pk = some p) : p.data <:+: pk.data := by
  unfold RemoteExecutor.pubKeyPart at h
  by_cases hsp : pk.data.contains ' '
  · rw [if_pos hsp] at h
    cases hl : (wsTokens pk.data).get? 1 with
    | none => rw [hl] at h; simp at h
    | some l =>
      rw [hl] at h
      simp only [Option.map_some', Option.some.injEq] at h
      have hmem : l ∈ wsTokens pk.data := List.get?_mem hl
      have hinf := wsTokensAux_infix pk.data [] l hmem
      simp only [List.reverse_nil, List.nil_append] at hinf
      rw [← h]
      exact hinf
  · rw [if_neg hsp] at h
    rw [Option.some.injEq] at h
    subst h
    exact List.infix_rfl

/-- After a successful `setup_ssh_trust`, the remote store contains the
public key's key material. -/
theorem setup_ssh_trust_key_present (env : RemoteExecutor.TrustEnv)
    (host : RemoteExecutor.RemoteHost) (pk p : String)
    (hread : env.pubRead = .ok pk)
    (hpart : RemoteExecutor.pubKeyPart pk = some p)
    (hfirst : (RemoteExecutor.setup_ssh_trust env host).1 = true) :
    strContains (RemoteExecutor.setup_ssh_trust env host).2.1.authorizedKeys p
      = true := by
  unfold RemoteExecutor.setup_ssh_trust at hfirst ⊢
  by_cases h0 : (!env.localKeyExists && !env.keygenOk) = true
  · rw [if_pos h0] at hfirst
    simp at hfirst
  · rw [if_neg h0] at hfirst ⊢
    rw [hread] at hfirst ⊢
    dsimp only at hfirst ⊢
    by_cases hfound : (env.precheckConnectOk &&
        (match RemoteExecutor.pubKeyPart pk with
          | some p => strContains host.authorizedKeys p
          | none => false)) = true
    · rw [if_pos hfound] at hfirst ⊢
      rw [hpart] at hfound
      exact (Bool.and_eq_true _ _).mp hfound |>.2
    · rw [if_neg hfound] at hfirst ⊢
      by_cases h1 : (!env.passwordGiven) = true
      · rw [if_pos h1] at hfirst
        simp at hfirst
      · rw [if_neg h1] at hfirst ⊢
        by_cases h2 : (!env.mutateConnectOk) = true
        · rw [if_pos h2] at hfirst
          simp at hfirst
        · rw [if_neg h2] at hfirst ⊢
          by_cases h3 : (env.mkdirExit != 0) = true
          · rw [if_pos h3] at hfirst
            simp at hfirst
          · rw [if_neg h3] at hfirst ⊢
            by_cases h4 : (env.appendExit != 0) = true
            · rw [if_pos h4] at hfirst
              simp at hfirst
            · rw [if_neg h4]
              have hinfix : p.data <:+:
                  (host.authorizedKeys ++ pk ++ "\n").data := by
                rw [String.data_append, String.data_append]
                exact (pubKeyPart_isInfix pk p hpart).trans
                  (List.infix_append host.authorizedKeys.data pk.data "\n".data)
              exact decide_eq_true hinfix

/-- C8: `setup_ssh_trust` is idempotent — after a successful first call,
a second call (same public key, local key pair present, pre-check connection
succeeding) detects the key material already present in the remote
authorized-keys store, performs no remote mutation, and still returns
success. -/
theorem c8_setup_ssh_trust_idempotent (env₁ env₂ : RemoteExecutor.TrustEnv)
    (host : RemoteExecutor.RemoteHost) (pk p : String)
    (hread₁ : env₁.pubRead = .ok pk) (hread₂ : env₂.pubRead = .ok pk)
    (hpart : RemoteExecutor.pubKeyPart pk = some p)
    (hkey : env₂.localKeyExists = true)
    (hpre : env₂.precheckConnectOk = true)
    (hfirst : (RemoteExecutor.setup_ssh_trust env₁ host).1 = true) :
    RemoteExecutor.setup_ssh_trust env₂
        (RemoteExecutor.setup_ssh_trust env₁ host).2.1
      = (true, (RemoteExecutor.setup_ssh_trust env₁ host).2.1, []) := by
  have hpresent := setup_ssh_trust_key_present env₁ host pk p hread₁ hpart hfirst
  generalize hg : (RemoteExecutor.setup_ssh_trust env₁ host).2.1 = host₁
    at hpresent ⊢
  unfold RemoteExecutor.setup_ssh_trust
  rw [hread₂]
  dsimp only
  have h0 : ¬((!env₂.localKeyExists && !env₂.keygenOk) = true) := by
    simp [hkey]
  rw [if_neg h0]
  have hfound : (env₂.precheckConnectOk &&
      (match RemoteExecutor.pubKeyPart pk with
        | some p => strContains host₁.authorizedKeys p
        | none => false)) = true := by
    rw [hpart, hpre]
    simp [hpresent]
  rw [if_pos hfound]

/-- C8 witness: first call appends the key, second call detects it and
mutates nothing. -/
theorem c8_setup_ssh_trust_idempotent_witness :
    (RemoteExecutor.setup_ssh_trust
        { localKeyExists := true, keygenOk := true,
          pubRead := .ok "ssh-rsa AAAAB3Nza root@host",
          passwordGiven := true, precheckConnectOk := true,
          mutateConnectOk := true, mkdirExit := 0, appendExit := 0 }
        { authorizedKeys := "" }).1 = true ∧
      RemoteExecutor.setup_ssh_trust
          { localKeyExists := true, keygenOk := true,
            pubRead := .ok "ssh-rsa AAAAB3Nza root@host",
            passwordGiven := true, precheckConnectOk := true,
            mutateConnectOk := true, mkdirExit := 0, appendExit := 0 }
          (RemoteExecutor.setup_ssh_trust
            { localKeyExists := true, keygenOk := true,
              pubRead := .ok "ssh-rsa AAAAB3Nza root@host",
              passwordGiven := true, precheckConnectOk := true,
              mutateConnectOk := true, mkdirExit := 0, appendExit := 0 }
            { authorizedKeys := "" }).2.1
        = (true,
            (RemoteExecutor.setup_ssh_trust
              { localKeyExists := true, keygenOk := true,
                pubRead := .ok "ssh-rsa AAAAB3Nza root@host",
                passwordGiven := true, precheckConnectOk := true,
                mutateConnectOk := true, mkdirExit := 0, appendExit := 0 }
              { authorizedKeys := "" }).2.1, []) := by
  refine ⟨by decide, ?_⟩
  exact c8_setup_ssh_trust_idempotent
    { localKeyExists := true, keygenOk := true,
      pubRead := .ok "ssh-rsa AAAAB3Nza root@host",
      passwordGiven := true, precheckConnectOk := true,
      mutateConnectOk := true, mkdirExit := 0, appendExit := 0 }
    { localKeyExists := true, keygenOk := true,
      pubRead := .ok "ssh-rsa AAAAB3Nza root@host",
      passwordGiven := true, precheckConnectOk := true,
      mutateConnectOk := true, mkdirExit := 0, appendExit := 0 }
    { authorizedKeys := "" } "ssh-rsa AAAAB3Nza root@host" "AAAAB3Nza"
    rfl rfl (by decide) rfl rfl (by decide)

/-! ## core/firewall.py — FirewallManager

Every `subprocess.run` call site is a `FwCmd` constructor; the oracle maps
each to `(returncode, stdout)` or a raised exception, and every function
returns the ordered list of commands it issued.  `check=True` call sites
treat a non-zero return code like an exception, as `CalledProcessError`
does. -/

namespace FirewallManager

/-- The subprocess call sites of `firewall.py`. -/
inductive FwCmd
  | whichFirewalld
  | whichIptables
  | systemctlIsActiveFirewalld
  | iptablesListAll
  | fwListPorts
  | fwGetActiveZones
  | fwZoneListPorts (zone : String)
  | fwAddPort (port : Nat) (protocol : String)
  | fwAddPortPermanent (port : Nat) (protocol : String)
  | iptablesListInput
  | iptablesAppendAccept (port : Nat) (protocol : String)
  | serviceIptablesSave
  | iptablesSaveToRulesFile
  | lsRedhatRelease
  | lsCentosRelease
  deriving DecidableEq, Repr

/-- Commands issued only by the per-port handling (`check_port_open` /
`open_port`): every `firewall-cmd` or `iptables` invocation made for a
port, plus the two persistence commands. -/
def isPortCmd : FwCmd → Bool
  | .fwListPorts => true
  | .fwGetActiveZones => true
  | .fwZoneListPorts _ => true
  | .fwAddPort _ _ => true
  | .fwAddPortPermanent _ _ => true
  | .iptablesListInput => true
  | .iptablesAppendAccept _ _ => true
  | .serviceIptablesSave => true
  | .iptablesSaveToRulesFile => true
  | _ => false

/-- Oracle: outcome of each subprocess call, `(returncode, stdout)` or a
raised exception. -/
structure FwEnv where
  run : FwCmd → Except Unit (Nat × String)

/-- Embeds `FirewallManager.detect_firewall_type`: probe `which firewalld`, then
`which iptables`; exceptions fall through to the next probe. -/
def detect_firewall_type (env : FwEnv) : String × List FwCmd :=
  match env.run .whichFirewalld with
  | .ok (0, _) => ("firewalld", [.whichFirewalld])
  | _ =>
    match env.run .whichIptables with
    | .ok (0, _) => ("iptables", [.whichFirewalld, .whichIptables])
    | _ => ("unknown", [.whichFirewalld, .whichIptables])

/-- The memoized `self.firewall_type`: detect only when still unset. -/
def resolvedType (env : FwEnv) (ft0 : Option String) : String × List FwCmd :=
  match ft0 with
  | some f => (f, [])
  | none => detect_firewall_type env

/-- Embeds `FirewallManager.is_firewall_running` for an already-detected type:
`systemctl is-active firewalld` must print `active` and exit 0; for
iptables, `iptables -L -n` (with `check=True`) must succeed; unknown types
are not running. -/
def is_firewall_running (env : FwEnv) (ft : String) : Bool × List FwCmd :=
  if ft = "firewalld" then
    match env.run .systemctlIsActiveFirewalld with
    | .ok (c, out) => ((pyStrip out == "active") && (c == 0),
        [.systemctlIsActiveFirewalld])
    | .error _ => (false, [.systemctlIsActiveFirewalld])
  else if ft = "iptables" then
    match env.run .iptablesListAll with
    | .ok (0, _) => (true, [.iptablesListAll])
    | _ => (false, [.iptablesListAll])
  else (false, [])

/-- The per-zone scan of `check_port_open` (firewalld branch): any
`check=True` failure aborts the whole check with `false`. -/
def zoneScan (env : FwEnv) (target : String) :
    List String → Bool × List FwCmd
  | [] => (false, [])
  | z :: zs =>
    match env.run (.fwZoneListPorts z) with
    | .ok (0, out) =>
      if (pySplitStr (pyStrip out)).contains target then
        (true, [.fwZoneListPorts z])
      else
        let r := zoneScan env target zs
        (r.1, .fwZoneListPorts z :: r.2)
    | _ => (false, [.fwZoneListPorts z])

/-- The zone list parsed from `firewall-cmd --get-active-zones` output:
split on newlines, drop empty lines and lines mentioning `interfaces:`,
strip the rest. -/
def parseZones (out : String) : List String :=
  ((pyStrip out).splitOn "\n").foldr (fun line acc =>
    if line.isEmpty || strContains line "interfaces:" then acc
    else pyStrip line :: acc) []

/-- Embeds `FirewallManager.check_port_open` for an already-detected type. -/
def check_port_open (env : FwEnv) (ft : String) (port : Nat)
    (protocol : String) : Bool × List FwCmd :=
  if ft = "firewalld" then
    match env.run .fwListPorts with
    | .ok (0, out) =>
      let target := toString port ++ "/" ++ protocol
      if (pySplitStr (pyStrip out)).contains target then
        (true, [.fwListPorts])
      else
        match env.run .fwGetActiveZones with
        | .ok (0, zout) =>
          let r := zoneScan env target (parseZones zout)
          (r.1, .fwListPorts :: .fwGetActiveZones :: r.2)
        | _ => (false, [.fwListPorts, .fwGetActiveZones])
    | _ => (false, [.fwListPorts])
  else if ft = "iptables" then
    match env.run .iptablesListInput with
    | .ok (0, out) =>
      ((((pyStrip out).splitOn "\n").any (fun line =>
          strContains line ⟨protocol.data.map Char.toUpper⟩ &&
            strContains line ("dpt:" ++ toString port) &&
            strContains line "ACCEPT")),
        [.iptablesListInput])
    | _ => (false, [.iptablesListInput])
  else (false, [])

/-- Embeds `FirewallManager._is_redhat_based`: `ls /etc/redhat-release`, falling
back to `ls /etc/centos-release` (both `check=True`). -/
def is_redhat_based (env : FwEnv) : Bool × List FwCmd :=
  match env.run .lsRedhatRelease with
  | .ok (0, _) => (true, [.lsRedhatRelease])
  | _ =>
    match env.run .lsCentosRelease with
    | .ok (0, _) => (true, [.lsRedhatRelease, .lsCentosRelease])
    | _ => (false, [.lsRedhatRelease, .lsCentosRelease])

/-- Embeds `FirewallManager.open_port` for an already-detected type.  For
firewalld: add, then add permanently when requested.  For iptables: append
an ACCEPT rule, then persist — RedHat family via `service iptables save`,
otherwise via the `iptables-save` invocation aimed at
`/etc/iptables/rules.v4`.  Every `check=True` failure is caught and yields
`false`. -/
def open_port (env : FwEnv) (ft : String) (port : Nat) (protocol : String)
    (permanent : Bool) : Bool × List FwCmd :=
  if ft = "firewalld" then
    match env.run (.fwAddPort port protocol) with
    | .ok (0, _) =>
      if permanent then
        match env.run (.fwAddPortPermanent port protocol) with
        | .ok (0, _) =>
          (true, [.fwAddPort port protocol, .fwAddPortPermanent port protocol])
        | _ =>
          (false, [.fwAddPort port protocol, .fwAddPortPermanent port protocol])
      else (true, [.fwAddPort port protocol])
    | _ => (false, [.fwAddPort port protocol])
  else if ft = "iptables" then
    match env.run (.iptablesAppendAccept port protocol) with
    | .ok (0, _) =>
      if permanent then
        let rh := is_redhat_based env
        if rh.1 then
          match env.run .serviceIptablesSave with
          | .ok (0, _) =>
            (true, .iptablesAppendAccept port protocol
                :: rh.2 ++ [.serviceIptablesSave])
          | _ =>
            (false, .iptablesAppendAccept port protocol
                :: rh.2 ++ [.serviceIptablesSave])
        else
          match env.run .iptablesSaveToRulesFile with
          | .ok (0, _) =>
            (true, .iptablesAppendAccept port protocol
                :: rh.2 ++ [.iptablesSaveToRulesFile])
          | _ =>
            (false, .iptablesAppendAccept port protocol
                :: rh.2 ++ [.iptablesSaveToRulesFile])
      else (true, [.iptablesAppendAccept port protocol])
    | _ => (false, [.iptablesAppendAccept port protocol])
  else (false, [])

/-- Embeds `FirewallManager.configure_firewall`: detect if needed, no-op with
`true` when the firewall is not running, otherwise per port skip when
already open, else open. -/
def configure_firewall (env : FwEnv) (ft0 : Option String) (ports : List Nat)
    (protocol : String) (permanent : Bool) : Bool × List FwCmd :=
  let ft := resolvedType env ft0
  let running := is_firewall_running env ft.1
  if !running.1 then (true, ft.2 ++ running.2)
  else
    let step := fun (acc : Bool × List FwCmd) (port : Nat) =>
      let chk := check_port_open env ft.1 port protocol
      if chk.1 then (acc.1, acc.2 ++ chk.2)
      else
        let opn := open_port env ft.1 port protocol permanent
        (acc.1 && opn.1, acc.2 ++ chk.2 ++ opn.2)
    let r := ports.foldl step (true, [])
    (r.1, ft.2 ++ running.2 ++ r.2)

/-- How each `FwCmd` is actually invoked by the source: the argv list, and
whether `shell=True` was passed to `subprocess.run`. -/
inductive Invocation
  | argv (args : List String)
  | shellList (args : List String)
  deriving DecidableEq, Repr

/-- The exact `subprocess.run` arguments of each call site in
`firewall.py`. -/
def realize : FwCmd → Invocation
  | .whichFirewalld => .argv ["which", "firewalld"]
  | .whichIptables => .argv ["which", "iptables"]
  | .systemctlIsActiveFirewalld => .argv ["systemctl", "is-active", "firewalld"]
  | .iptablesListAll => .argv ["iptables", "-L", "-n"]
  | .fwListPorts => .argv ["firewall-cmd", "--list-ports"]
  | .fwGetActiveZones => .argv ["firewall-cmd", "--get-active-zones"]
  | .fwZoneListPorts zone => .argv ["firewall-cmd", "--zone", zone, "--list-ports"]
  | .fwAddPort port protocol =>
    .argv ["firewall-cmd", "--add-port", toString port ++ "/" ++ protocol]
  | .fwAddPortPermanent port protocol =>
    .argv ["firewall-cmd", "--permanent", "--add-port",
      toString port ++ "/" ++ protocol]
  | .iptablesListInput =>
    .argv ["iptables", "-L", "INPUT", "-n", "-v", "--line-numbers"]
  | .iptablesAppendAccept port protocol =>
    .argv ["iptables", "-A", "INPUT", "-p", protocol, "--dport",
      toString port, "-j", "ACCEPT"]
  | .serviceIptablesSave => .argv ["service", "iptables", "save"]
  | .iptablesSaveToRulesFile =>
    .shellList ["iptables-save", ">", "/etc/iptables/rules.v4"]
  | .lsRedhatRelease => .argv ["ls", "/etc/redhat-release"]
  | .lsCentosRelease => .argv ["ls", "/etc/centos-release"]

/-- POSIX semantics of `subprocess.run(list, shell=True)`: the shell runs
`sh -c args[0]` and binds the remaining elements as positional shell
parameters, so only the first element is interpreted as the command. -/
def effectiveShellCommand : Invocation → Option String
  | .shellList (cmd :: _) => some cmd
  | .shellList [] => none
  | .argv _ => none

/-- An output redirection can only happen when the string the shell
interprets contains a `>` character. -/
def shellRedirects (i : Invocation) : Bool :=
  match effectiveShellCommand i with
  | some cmd => cmd.data.contains '>'
  | none => false

end FirewallManager

/-! ### Claims C9 and C10 -/

/-- Detection only issues `which` probes. -/
theorem detect_firewall_type_no_port_cmds (env : FirewallManager.FwEnv) :
    (FirewallManager.detect_firewall_type env).2.filter
        FirewallManager.isPortCmd = [] := by
  unfold FirewallManager.detect_firewall_type
  cases h1 : env.run .whichFirewalld with
  | ok r =>
    obtain ⟨c, out⟩ := r
    cases c with
    | zero => rfl
    | succ n =>
      cases h2 : env.run .whichIptables with
      | ok r2 =>
        obtain ⟨c2, out2⟩ := r2
        cases c2 with
        | zero => rfl
        | succ n2 => rfl
      | error e => rfl
  | error e =>
    cases h2 : env.run .whichIptables with
    | ok r2 =>
      obtain ⟨c2, out2⟩ := r2
      cases c2 with
      | zero => rfl
      | succ n2 => rfl
    | error e2 => rfl

/-- The activity probe only issues the systemctl / list probe. -/
theorem is_firewall_running_no_port_cmds (env : FirewallManager.FwEnv)
    (ft : String) :
    (FirewallManager.is_firewall_running env ft).2.filter
        FirewallManager.isPortCmd = [] := by
  unfold FirewallManager.is_firewall_running
  by_cases h1 : ft = "firewalld"
  · rw [if_pos h1]
    cases h : env.run .systemctlIsActiveFirewalld with
    | ok r => obtain ⟨c, out⟩ := r; rfl
    | error e => rfl
  · rw [if_neg h1]
    by_cases h2 : ft = "iptables"
    · rw [if_pos h2]
      cases h : env.run .iptablesListAll with
      | ok r =>
        obtain ⟨c, out⟩ := r
        cases c with
        | zero => rfl
        | succ n => rfl
      | error e => rfl
    · rw [if_neg h2]
      rfl

/-- C9: when the firewall backend is not running, `configure_firewall`
returns `true` for every port list and issues no per-port backend command —
no `firewall-cmd` or `iptables` invocation for any port, no rule addition,
no persistence command. -/
theorem c9_configure_firewall_inactive_noop (env : FirewallManager.FwEnv)
    (ft0 : Option String) (ports : List Nat) (protocol : String)
    (permanent : Bool)
    (h : (FirewallManager.is_firewall_running env
        (FirewallManager.resolvedType env ft0).1).1 = false) :
    (FirewallManager.configure_firewall env ft0 ports protocol permanent).1
        = true ∧
      (FirewallManager.configure_firewall env ft0 ports protocol
          permanent).2.filter FirewallManager.isPortCmd = [] := by
  unfold FirewallManager.configure_firewall
  dsimp only
  rw [h]
  simp only [Bool.not_false, if_true]
  refine ⟨by trivial, ?_⟩
  rw [List.filter_append, is_firewall_running_no_port_cmds,
    List.append_nil]
  cases ft0 with
  | some f => rfl
  | none => exact detect_firewall_type_no_port_cmds env

/-- C9 witness: firewalld detected but `systemctl is-active` reports
`inactive`; two ports requested, none opened, success returned. -/
theorem c9_configure_firewall_inactive_noop_witness :
    (FirewallManager.is_firewall_running
        { run := fun c => match c with
            | .whichFirewalld => .ok (0, "/usr/sbin/firewalld")
            | .systemctlIsActiveFirewalld => .ok (3, "inactive")
            | _ => .ok (0, "") }
        (FirewallManager.resolvedType
          { run := fun c => match c with
              | .whichFirewalld => .ok (0, "/usr/sbin/firewalld")
              | .systemctlIsActiveFirewalld => .ok (3, "inactive")
              | _ => .ok (0, "") } none).1).1 = false ∧
      (FirewallManager.configure_firewall
          { run := fun c => match c with
              | .whichFirewalld => .ok (0, "/usr/sbin/firewalld")
              | .systemctlIsActiveFirewalld => .ok (3, "inactive")
              | _ => .ok (0, "") }
          none [9000, 9001] "tcp" true).1 = true ∧
      (FirewallManager.configure_firewall
          { run := fun c => match c with
              | .whichFirewalld => .ok (0, "/usr/sbin/firewalld")
              | .systemctlIsActiveFirewalld => .ok (3, "inactive")
              | _ => .ok (0, "") }
          none [9000, 9001] "tcp" true).2.filter
        FirewallManager.isPortCmd = [] := by
  refine ⟨by decide, ?_⟩
  exact c9_configure_firewall_inactive_noop
    { run := fun c => match c with
        | .whichFirewalld => .ok (0, "/usr/sbin/firewalld")
        | .systemctlIsActiveFirewalld => .ok (3, "inactive")
        | _ => .ok (0, "") }
    none [9000, 9001] "tcp" true (by decide)

/-- C10 exhibit: on a non-RedHat host with the iptables backend and
persistence requested, `open_port` returns `true` and issues the
`iptables-save` persistence invocation — but that call site passes an
argument *list* together with `shell=True`, so the shell interprets only
`"iptables-save"` as the command and the `">"`, `"/etc/iptables/rules.v4"`
elements become positional shell parameters: no redirection into the static
rules file ever happens, contradicting the claimed persistence.  On a
RedHat-family host the `service iptables save` path is a real argv
invocation. -/
theorem c10_iptables_persist_debian_never_writes_rules_file :
    (FirewallManager.open_port
        { run := fun c => match c with
            | .lsRedhatRelease => .ok (2, "")
            | .lsCentosRelease => .ok (2, "")
            | _ => .ok (0, "") }
        "iptables" 9000 "tcp" true).1 = true ∧
      FirewallManager.FwCmd.iptablesSaveToRulesFile ∈
        (FirewallManager.open_port
          { run := fun c => match c with
              | .lsRedhatRelease => .ok (2, "")
              | .lsCentosRelease => .ok (2, "")
              | _ => .ok (0, "") }
          "iptables" 9000 "tcp" true).2 ∧
      (FirewallManager.open_port
          { run := fun c => match c with
              | .lsRedhatRelease => .ok (0, "/etc/redhat-release")
              | _ => .ok (0, "") }
          "iptables" 9000 "tcp" true).1 = true ∧
      FirewallManager.FwCmd.serviceIptablesSave ∈
        (FirewallManager.open_port
          { run := fun c => match c with
              | .lsRedhatRelease => .ok (0, "/etc/redhat-release")
              | _ => .ok (0, "") }
          "iptables" 9000 "tcp" true).2 ∧
      FirewallManager.realize .iptablesSaveToRulesFile
        = .shellList ["iptables-save", ">", "/etc/iptables/rules.v4"] ∧
      FirewallManager.effectiveShellCommand
          (FirewallManager.realize .iptablesSaveToRulesFile)
        = some "iptables-save" ∧
      FirewallManager.shellRedirects
          (FirewallManager.realize .iptablesSaveToRulesFile) = false := by
  decide
